import Mathlib

/-!
Verification of the authenticated-session core of the Rockstar Galaxy plugin
(`src/http_client.py`), shallowly embedded in Lean.

Modelling conventions:
* Python wall-clock times (`time()`) are `Int` values passed explicitly.
* Python runtime failures (raised exceptions) are `Except PyErr` results;
  `PyErr.typeError` models `TypeError` (e.g. comparing or concatenating
  `None`), `PyErr.keyError` models a missing-key lookup in a cookie jar.
* Network responses are oracle parameters: each fallible provider interaction
  is an `Except PyErr _` argument giving the outcome the provider returns.
-/

namespace RockstarAuth

/-- Python runtime / network failure conditions used by the embedding. -/
inductive PyErr where
  | typeError
  | keyError
  | netFail
  | authFail
  | protocolErr
  deriving DecidableEq, Repr

/-! ### `Token` (http_client.py lines 19-35)

```
class Token:
    _token = None
    _expires = None
    def set_token(self, token, expiration): ...
    def get_token(self): return self._token
    @property
    def expired(self): return self._expires <= time()
```
-/

structure Token where
  _token : Option String := none
  _expires : Option Int := none
  deriving DecidableEq, Repr

def Token.set_token (t : Token) (token : Option String) (expiration : Option Int) : Token :=
  { t with _token := token, _expires := expiration }

def Token.get_token (t : Token) : Option String :=
  t._token

/-- `Token.expired` evaluates `self._expires <= time()`.  When `_expires` is
`None` (the freshly-constructed state, or after `set_token(None, None)`),
Python 3 raises `TypeError` on the comparison. -/
def Token.expired (t : Token) (now : Int) : Except PyErr Bool :=
  match t._expires with
  | none => .error .typeError
  | some e => .ok (decide (e ≤ now))

/-! ### Refresh-token accessors (http_client.py lines 118-129) -/

/-- The literal expiry offset `3600 * 24 * 365 * 20` from line 119. -/
def twentyYears : Int := 3600 * 24 * 365 * 20

/-- `set_refresh_token` (lines 118-120): stores the token with expiry
`time() + 3600 * 24 * 365 * 20`. -/
def set_refresh_token (box : Token) (token : String) (now : Int) : Token :=
  box.set_token (some token) (some (now + twentyYears))

/-- `get_refresh_token` (lines 125-129): if the box is expired, clear it with
`set_token(None, None)`; then return `get_token()`.  The `expired` property
itself can raise (see `Token.expired`), which propagates. -/
def get_refresh_token (box : Token) (now : Int) : Except PyErr (Option String × Token) :=
  match box.expired now with
  | .error e => .error e
  | .ok true =>
      let cleared := box.set_token none none
      .ok (cleared.get_token, cleared)
  | .ok false => .ok (box.get_token, box)

/-- Claim C4 (code bug): the spec says `expired` is never true — and in
particular does not fail — when the expiry instant is null, but on a box whose
`_expires` is `None` (the freshly constructed state) the code raises
`TypeError`; for a non-null expiry the iff with `expiresAt <= now` does hold. -/
theorem c4_expired_none_raises :
    Token.expired {} 0 = Except.error PyErr.typeError
    ∧ (∀ (tk : Option String) (e now : Int),
        Token.expired { _token := tk, _expires := some e } now
          = Except.ok (decide (e ≤ now))) :=
  ⟨rfl, fun _ _ _ => rfl⟩

/-- Claim C5: setting a refresh token at time `now` stores expiry
`now + twentyYears`; reading at a time past that expiry returns the empty
(cleared) token and clears the stored expiry; reading strictly before the
expiry returns the stored value with the box unchanged. -/
theorem c5_refresh_token_lifecycle (box : Token) (token : String) (now tLate tEarly : Int)
    (hLate : now + twentyYears ≤ tLate) (hEarly : tEarly < now + twentyYears) :
    (set_refresh_token box token now)._expires = some (now + twentyYears)
    ∧ get_refresh_token (set_refresh_token box token now) tLate
        = .ok (none, { _token := none, _expires := none })
    ∧ get_refresh_token (set_refresh_token box token now) tEarly
        = .ok (some token, set_refresh_token box token now) := by
  refine ⟨rfl, ?_, ?_⟩
  · simp [get_refresh_token, Token.expired, set_refresh_token, Token.set_token,
      Token.get_token, hLate]
  · simp [get_refresh_token, Token.expired, set_refresh_token, Token.set_token,
      Token.get_token, not_le.mpr hEarly]

/-- Concrete instantiation of `c5_refresh_token_lifecycle` at `now = 0`. -/
theorem c5_refresh_token_lifecycle_witness :
    (set_refresh_token {} "rmt" 0)._expires = some (0 + twentyYears)
    ∧ get_refresh_token (set_refresh_token {} "rmt" 0) 630720000
        = .ok (none, { _token := none, _expires := none })
    ∧ get_refresh_token (set_refresh_token {} "rmt" 0) 7
        = .ok (some "rmt", set_refresh_token {} "rmt" 0) :=
  c5_refresh_token_lifecycle {} "rmt" 0 630720000 7 (by decide) (by decide)

/-! ### Session-cookie rotation (`update_cookie`, http_client.py lines 89-98)

The session cookie collection is modelled as a list of named cookies for a
single domain/path (the jar keys cookies by name).  `del cookies[name]` on a
`requests` jar removes every cookie of that name and is a no-op when absent;
`cookies.set(**cookie)` then adds the new cookie.
-/

structure Cookie where
  name : String
  value : String
  deriving DecidableEq, Repr

/-- The rotation test `re.search("^rsso", name)`: the name's character
sequence starts with `rsso`. -/
def isRssoName (n : String) : Bool :=
  List.isPrefixOf "rsso".data n.data

/-- `update_cookie` (lines 89-98): if the incoming cookie's name matches
`^rsso`, first delete every stored cookie whose name matches `^rsso`; then
delete any cookie with the incoming name, and add the incoming cookie. -/
def update_cookie (cs : List Cookie) (c : Cookie) : List Cookie :=
  let cs1 := if isRssoName c.name then cs.filter (fun oc => ! isRssoName oc.name) else cs
  let cs2 := cs1.filter (fun oc => oc.name != c.name)
  cs2 ++ [c]

/-- After a `^rsso` purge, no later filtering can reintroduce an
`rsso`-prefixed cookie. -/
theorem filter_rsso_of_purged (l : List Cookie) (p : Cookie → Bool) :
    ((l.filter (fun oc => ! isRssoName oc.name)).filter p).filter
      (fun oc => isRssoName oc.name) = [] := by
  induction l with
  | nil => rfl
  | cons a t ih =>
      by_cases h : isRssoName a.name
      · simpa [List.filter_cons, h] using ih
      · simp only [Bool.not_eq_true] at h
        by_cases hp : p a
        · simp [List.filter_cons, h, hp]
          exact fun a _ hh _ => hh
        · simp [List.filter_cons, h, hp]
          exact fun a _ hh _ => hh

/-- Claim C6: adding two `rsso`-prefixed cookies in sequence via
`update_cookie` leaves exactly one `rsso`-prefixed cookie in the collection,
namely the one added last. -/
theorem c6_rsso_rotation (cs : List Cookie) (c1 c2 : Cookie)
    (h1 : isRssoName c1.name = true) (h2 : isRssoName c2.name = true) :
    (update_cookie (update_cookie cs c1) c2).filter (fun oc => isRssoName oc.name)
      = [c2] := by
  show ((update_cookie cs c1 |> fun l =>
      (if isRssoName c2.name then l.filter (fun oc => ! isRssoName oc.name) else l).filter
        (fun oc => oc.name != c2.name) ++ [c2])).filter (fun oc => isRssoName oc.name) = [c2]
  simp only [h2, if_pos]
  rw [List.filter_append]
  rw [filter_rsso_of_purged]
  simp [List.filter_cons, h2]

/-- Concrete instantiation of `c6_rsso_rotation`: a jar holding an unrelated
cookie receives two successive `rsso`-named cookies. -/
theorem c6_rsso_rotation_witness :
    (update_cookie (update_cookie [⟨"TS019978c2", "ts"⟩] ⟨"rssoOld", "v1"⟩)
        ⟨"rssoNew", "v2"⟩).filter (fun oc => isRssoName oc.name)
      = [⟨"rssoNew", "v2"⟩] :=
  c6_rsso_rotation [⟨"TS019978c2", "ts"⟩] ⟨"rssoOld", "v1"⟩ ⟨"rssoNew", "v2"⟩
    (by decide) (by decide)

/-! ### Transparent retry (`do_request`, lines 146-153, and
`get_json_from_request_strict`, lines 155-169)

Both operations are driven by provider outcomes supplied as oracle
parameters.  Besides the result we record the trace of observable events:
each underlying request attempt, the `set_auth_lost_callback(True)` call, and
each `authenticate()` call.
-/

abbrev ReqResult := Except PyErr String

inductive ReqEv where
  | attempt      -- one attempt of the underlying request
  | setAuthLost  -- `self.set_auth_lost_callback(True)`
  | authCall     -- `await self.authenticate()`
  deriving DecidableEq, Repr

/-- `do_request` (lines 146-153): try the request once; on failure set the
auth-lost flag, authenticate, and run the request once more, whose outcome —
success or failure — is returned.  A failure of `authenticate()` itself
propagates before the retry. -/
def do_request (first : ReqResult) (auth : Except PyErr Unit) (retry : ReqResult) :
    ReqResult × List ReqEv :=
  match first with
  | .ok v => (.ok v, [.attempt])
  | .error _ =>
    match auth with
    | .error ea => (.error ea, [.attempt, .setAuthLost, .authCall])
    | .ok _ => (retry, [.attempt, .setAuthLost, .authCall, .attempt])

/-- One oracle round for `get_json_from_request_strict`: the outcome of the
`s.get`/`resp.json()` attempt, and the outcome of the `authenticate()` call
used if that attempt failed. -/
structure StrictRound where
  req : ReqResult
  auth : Except PyErr Unit
  deriving Repr

/-- `get_json_from_request_strict` (lines 155-169): try the request; on
failure set the auth-lost flag, authenticate, and *recurse* — there is no
retry bound.  The oracle list supplies one round per attempt; the base case
only models exhaustion of the supplied outcomes.  The second component counts
the request attempts performed. -/
def get_json_from_request_strict : List StrictRound → ReqResult × Nat
  | [] => (.error .netFail, 0)
  | r :: rest =>
    match r.req with
    | .ok v => (.ok v, 1)
    | .error _ =>
      match r.auth with
      | .error ea => (.error ea, 1)
      | .ok _ =>
        let p := get_json_from_request_strict rest
        (p.1, p.2 + 1)

/-- Claim C1: when the first attempt of `do_request` fails, the manager sets
the auth-lost flag and calls `authenticate()`; when `authenticate()`
succeeds it retries exactly once and the caller receives the second outcome
(in particular the second failure, not the first); no further retry ever
happens inside `do_request` — if `authenticate()` itself fails, that failure
propagates with no retry at all. -/
theorem c1_do_request_retries_once (e : PyErr) (retry : ReqResult) :
    (do_request (.error e) (.ok ()) retry).2
        = [.attempt, .setAuthLost, .authCall, .attempt]
    ∧ ((do_request (.error e) (.ok ()) retry).2.count .attempt = 2)
    ∧ (do_request (.error e) (.ok ()) retry).1 = retry
    ∧ (∀ ea : PyErr, (do_request (.error e) (.error ea) retry).2.count .attempt = 1
        ∧ (do_request (.error e) (.error ea) retry).1 = .error ea) := by
  refine ⟨rfl, ?_, rfl, fun ea => ⟨?_, rfl⟩⟩
  · show ([ReqEv.attempt, .setAuthLost, .authCall, .attempt].count .attempt) = 2
    decide
  · show ([ReqEv.attempt, .setAuthLost, .authCall].count .attempt) = 1
    decide

/-- Claim C2 counterexample: `get_json_from_request_strict`, one of the
manager's request-issuing operations, performs three underlying attempts when
the provider fails twice (with re-authentication succeeding) and then
succeeds — more than the two the claim allows. -/
theorem c2_counterexample :
    (get_json_from_request_strict
        [⟨.error .netFail, .ok ()⟩, ⟨.error .netFail, .ok ()⟩, ⟨.ok "payload", .ok ()⟩]).2 = 3
    ∧ ¬ ((get_json_from_request_strict
        [⟨.error .netFail, .ok ()⟩, ⟨.error .netFail, .ok ()⟩, ⟨.ok "payload", .ok ()⟩]).2 ≤ 2) :=
  ⟨rfl, by decide⟩

/-- Claim C2 amended: `do_request` performs at most two underlying attempts,
but `get_json_from_request_strict` retries recursively after every failure
whose re-authentication succeeds: after `n` such failures followed by a
success it has performed `n + 1` attempts, so no fixed bound exists. -/
theorem c2_retry_budget :
    (∀ (first retry : ReqResult) (auth : Except PyErr Unit),
        (do_request first auth retry).2.count .attempt ≤ 2)
    ∧ (∀ (n : Nat) (v : String),
        (get_json_from_request_strict
          (List.replicate n ⟨.error .netFail, .ok ()⟩ ++ [⟨.ok v, .ok ()⟩])).2 = n + 1) := by
  constructor
  · intro first retry auth
    rcases first with e | v
    · rcases auth with ea | u <;> simp [do_request, List.count_cons]
    · simp [do_request, List.count_cons]
  · intro n v
    induction n with
    | zero => rfl
    | succ k ih =>
        rw [List.replicate_succ, List.cons_append]
        simpa [get_json_from_request_strict] using ih

/-! ### Manager state and the profile-fetch / authenticate flow
(http_client.py lines 52-70, 103-104, 186-241, 312-359)

The state fields the claims depend on: `user`, `_auth_lost_callback` (stored
as a truthiness flag: the code assigns `True` to it and tests `is None`),
`_current_auth_token` and `bearer`.  `refresh_credentials` inside
`authenticate` is abstracted into a single oracle outcome here; it is
modelled in detail further below for the logging claim.
-/

structure UserInfo where
  display_name : String
  rockstar_id : Int
  deriving DecidableEq, Repr

structure GameEntry where
  id : String
  platform : String
  deriving DecidableEq, Repr

/-- The fields of the `get-user.json` document that the code reads
(`user.auth_token.access_token`, `user.auth_token.refresh_token`,
`user.games_played[].{id,platform}`). -/
structure UserDoc where
  access_token : String
  refresh_token : String
  games_played : List GameEntry
  deriving DecidableEq, Repr

structure ClientState where
  user : Option UserInfo := none
  _auth_lost_callback : Bool := false
  _current_auth_token : Option String := none
  bearer : Option String := none
  deriving DecidableEq, Repr

/-- `is_authenticated` (lines 103-104):
`self.user is not None and self._auth_lost_callback is None`. -/
def is_authenticated (s : ClientState) : Bool :=
  s.user.isSome && ! s._auth_lost_callback

/-- `set_auth_lost_callback` (lines 100-101); `do_request` passes `True`. -/
def set_auth_lost_callback (s : ClientState) (cb : Bool) : ClientState :=
  { s with _auth_lost_callback := cb }

/-- Redaction used in `_get_user_json` diagnostics:
`f"{str(tok)[:5]}***{str(tok[-3:])}"`. -/
def redact (tok : String) : String :=
  tok.take 5 ++ "***" ++ tok.drop (tok.length - 3)

structure UserJsonResult where
  res : Except PyErr UserDoc
  state : ClientState
  stores : Nat          -- number of `self._store_credentials(...)` calls made
  logs : List String
  deriving Repr

/-- `_get_user_json` (lines 186-215).  Oracle parameters: `oldCookie` is the
`ScAuthTokenData` cookie before the fetch (`None` models a missing cookie,
whose lookup raises `KeyError`); `httpResp` is the outcome of the `GET`,
carrying the `ScAuthTokenData` cookie value after the response; `parsed` is
the outcome of `resp.json()`.  On a successful `GET` the cached token is
updated and — when the value changed while `self.user` is set — the
store-credentials callback runs, even if `resp.json()` then fails. -/
def _get_user_json (oldCookie : Option String) (httpResp : Except PyErr String)
    (parsed : Except PyErr UserDoc) (s : ClientState) : UserJsonResult :=
  match oldCookie with
  | none =>
      { res := .error .keyError, state := s, stores := 0,
        logs := ["ROCKSTAR_USER_JSON_ERROR"] }
  | some old =>
    match httpResp with
    | .error e =>
        { res := .error e, state := s, stores := 0,
          logs := ["ROCKSTAR_OLD_AUTH: " ++ redact old, "ROCKSTAR_USER_JSON_ERROR"] }
    | .ok newAuth =>
      let s1 := { s with _current_auth_token := some newAuth }
      let changed := newAuth != old
      let st := if changed && s.user.isSome then 1 else 0
      let baseLogs :=
        ["ROCKSTAR_OLD_AUTH: " ++ redact old, "ROCKSTAR_NEW_AUTH " ++ redact newAuth]
          ++ (if changed then
              ["ROCKSTAR_AUTH_CHANGE: The ScAuthTokenData value has changed!"] else [])
      match parsed with
      | .error e =>
          { res := .error e, state := s1, stores := st,
            logs := baseLogs ++ ["ROCKSTAR_USER_JSON_ERROR"] }
      | .ok doc => { res := .ok doc, state := s1, stores := st, logs := baseLogs }

structure BearerResult where
  res : Except PyErr String
  state : ClientState
  stores : Nat
  deriving Repr

/-- `_get_bearer` (lines 217-227): fetch the user document, cache and return
`user.auth_token.access_token`; any failure propagates. -/
def _get_bearer (oldCookie : Option String) (httpResp : Except PyErr String)
    (parsed : Except PyErr UserDoc) (s : ClientState) : BearerResult :=
  let u := _get_user_json oldCookie httpResp parsed s
  match u.res with
  | .error e => { res := .error e, state := u.state, stores := u.stores }
  | .ok doc =>
      { res := .ok doc.access_token,
        state := { u.state with bearer := some doc.access_token },
        stores := u.stores }

/-- The Python loop of `get_played_games` (lines 232-237): walk
`games_played` in order, appending `game["id"]` whenever
`game["platform"] == "PC"`. -/
def playedGamesLoop : List GameEntry → List String
  | [] => []
  | g :: rest =>
      if g.platform == "PC" then g.id :: playedGamesLoop rest
      else playedGamesLoop rest

/-- `get_played_games` (lines 229-241): fetch the user document and project
the PC entries; any failure of the fetch propagates. -/
def get_played_games (oldCookie : Option String) (httpResp : Except PyErr String)
    (parsed : Except PyErr UserDoc) (s : ClientState) :
    Except PyErr (List String) × ClientState × Nat :=
  let u := _get_user_json oldCookie httpResp parsed s
  match u.res with
  | .error e => (.error e, u.state, u.stores)
  | .ok doc => (.ok (playedGamesLoop doc.games_played), u.state, u.stores)

/-- Oracle for one `authenticate()` run: the outcome of
`refresh_credentials()` (used only when the auth-lost flag is set), the
oracle of the inner `_get_user_json` call, and the outcome of the
`getbasicprofile` request with its extracted account fields. -/
structure AuthOracle where
  refresh : Except PyErr Unit
  oldCookie : Option String
  httpResp : Except PyErr String
  parsed : Except PyErr UserDoc
  profile : Except PyErr UserInfo
  deriving Repr

structure AuthResult where
  res : Except PyErr UserInfo
  state : ClientState
  stores : Nat
  deriving Repr

/-- `authenticate` (lines 312-359): when the auth-lost flag is set, run
`refresh_credentials()` first (its failure propagates, the flag stays set);
on success clear the flag.  Then `_get_bearer()`, then the basic-profile
request; on full success set `self.user` and call the store-credentials
callback unconditionally (`self._first_auth` is initialised but never read:
the callback runs on every successful `authenticate`). -/
def authenticate (o : AuthOracle) (s : ClientState) : AuthResult :=
  let step1 : Except PyErr ClientState :=
    if s._auth_lost_callback then
      match o.refresh with
      | .error e => .error e
      | .ok _ => .ok { s with _auth_lost_callback := false }
    else .ok s
  match step1 with
  | .error e => { res := .error e, state := s, stores := 0 }
  | .ok s1 =>
    let b := _get_bearer o.oldCookie o.httpResp o.parsed s1
    match b.res with
    | .error e => { res := .error e, state := b.state, stores := b.stores }
    | .ok _ =>
      match o.profile with
      | .error e => { res := .error e, state := b.state, stores := b.stores }
      | .ok u =>
          { res := .ok u, state := { b.state with user := some u },
            stores := b.stores + 1 }

/-- `__init__` (lines 53-70): no user, no auth-lost flag, no cached token,
no bearer. -/
def initialClientState : ClientState := {}

/-- `_get_user_json` never changes the auth-lost flag or the user field. -/
theorem user_json_state_frame (oc : Option String) (hresp : Except PyErr String)
    (p : Except PyErr UserDoc) (s : ClientState) :
    (_get_user_json oc hresp p s).state._auth_lost_callback = s._auth_lost_callback
    ∧ (_get_user_json oc hresp p s).state.user = s.user := by
  unfold _get_user_json
  rcases oc with _ | old
  · exact ⟨rfl, rfl⟩
  · rcases hresp with e | na
    · exact ⟨rfl, rfl⟩
    · rcases p with e | doc <;> exact ⟨rfl, rfl⟩

/-- `_get_bearer` never changes the auth-lost flag or the user field. -/
theorem bearer_state_frame (oc : Option String) (hresp : Except PyErr String)
    (p : Except PyErr UserDoc) (s : ClientState) :
    (_get_bearer oc hresp p s).state._auth_lost_callback = s._auth_lost_callback
    ∧ (_get_bearer oc hresp p s).state.user = s.user := by
  unfold _get_bearer
  rcases hres : (_get_user_json oc hresp p s).res with e | doc <;>
    simpa [hres] using user_json_state_frame oc hresp p s

/-- On success, `authenticate` produces the bearer-step state with the user
set; the auth-lost flag in that state is clear. -/
theorem authenticate_ok_state (o : AuthOracle) (s : ClientState) (u : UserInfo)
    (h : (authenticate o s).res = .ok u) :
    (authenticate o s).state.user = some u
    ∧ (authenticate o s).state._auth_lost_callback = false := by
  unfold authenticate at h ⊢
  cases hcb : s._auth_lost_callback with
  | true =>
    rcases hr : o.refresh with e | v
    · simp [hcb, hr] at h
    · simp only [hcb, hr, if_pos] at h ⊢
      rcases hb : (_get_bearer o.oldCookie o.httpResp o.parsed
          { s with _auth_lost_callback := false }).res with e2 | b2
      · simp [hb] at h
      · rcases hp : o.profile with e3 | u3
        · simp [hb, hp] at h
        · simp only [hb, hp] at h ⊢
          injection h with h4
          subst h4
          have hfr := (bearer_state_frame o.oldCookie o.httpResp o.parsed
            { s with _auth_lost_callback := false }).1
          exact ⟨by simp, by simp [hfr]⟩
  | false =>
    simp only [hcb, Bool.false_eq_true, if_neg, not_false_eq_true] at h ⊢
    rcases hb : (_get_bearer o.oldCookie o.httpResp o.parsed s).res with e2 | b2
    · simp [hb] at h
    · rcases hp : o.profile with e3 | u3
      · simp [hb, hp] at h
      · simp only [hb, hp] at h ⊢
        injection h with h4
        subst h4
        have hfr := (bearer_state_frame o.oldCookie o.httpResp o.parsed s).1
        exact ⟨by simp, by simp [hfr, hcb]⟩

/-- Claim C7: `is_authenticated()` is true iff the user identity is set and
no auth-lost flag is pending; it is false at construction, true after any
successful `authenticate()`, and false again whenever the auth-lost flag is
set afterwards. -/
theorem c7_is_authenticated (o : AuthOracle) (s : ClientState) (u : UserInfo)
    (h : (authenticate o s).res = .ok u) :
    (∀ t : ClientState,
        is_authenticated t = true ↔ (t.user ≠ none ∧ t._auth_lost_callback = false))
    ∧ is_authenticated initialClientState = false
    ∧ is_authenticated (authenticate o s).state = true
    ∧ (∀ t : ClientState, is_authenticated (set_auth_lost_callback t true) = false) := by
  refine ⟨?_, rfl, ?_, ?_⟩
  · intro t
    simp [is_authenticated, Bool.and_eq_true, Bool.not_eq_true',
      Option.isSome_iff_ne_none]
  · obtain ⟨h1, h2⟩ := authenticate_ok_state o s u h
    simp [is_authenticated, h1, h2]
  · intro t
    simp [is_authenticated, set_auth_lost_callback]

/-- Concrete all-success instantiation of `c7_is_authenticated`. -/
theorem c7_is_authenticated_witness :
    (∀ t : ClientState,
        is_authenticated t = true ↔ (t.user ≠ none ∧ t._auth_lost_callback = false))
    ∧ is_authenticated initialClientState = false
    ∧ is_authenticated (authenticate
        { refresh := .ok (), oldCookie := some "TOK", httpResp := .ok "TOK",
          parsed := .ok ⟨"acc", "ref", []⟩, profile := .ok ⟨"Sam", 42⟩ }
        initialClientState).state = true
    ∧ (∀ t : ClientState, is_authenticated (set_auth_lost_callback t true) = false) :=
  c7_is_authenticated
    { refresh := .ok (), oldCookie := some "TOK", httpResp := .ok "TOK",
      parsed := .ok ⟨"acc", "ref", []⟩, profile := .ok ⟨"Sam", 42⟩ }
    initialClientState ⟨"Sam", 42⟩ rfl

/-! ### Store-credentials occasions (claim C3) -/

/-- Spec-side count of store-credentials calls made by one profile fetch:
one call exactly when the auth cookie was present, the request succeeded with
token `na`, the value changed, and a user identity was already set. -/
def storeCallSpec (oldCookie : Option String) (httpResp : Except PyErr String)
    (userSet : Bool) : Nat :=
  match oldCookie, httpResp with
  | some old, .ok na => if na != old && userSet then 1 else 0
  | _, _ => 0

/-- The store count of `_get_user_json` matches `storeCallSpec`. -/
theorem user_json_stores_eq (oc : Option String) (hresp : Except PyErr String)
    (p : Except PyErr UserDoc) (s : ClientState) :
    (_get_user_json oc hresp p s).stores = storeCallSpec oc hresp s.user.isSome := by
  unfold _get_user_json storeCallSpec
  rcases oc with _ | old
  · rfl
  · rcases hresp with e | na
    · rfl
    · rcases p with e | doc <;> rfl

/-- `_get_bearer` adds no store-credentials calls of its own. -/
theorem bearer_stores_eq (oc : Option String) (hresp : Except PyErr String)
    (p : Except PyErr UserDoc) (s : ClientState) :
    (_get_bearer oc hresp p s).stores = storeCallSpec oc hresp s.user.isSome := by
  unfold _get_bearer
  rcases hres : (_get_user_json oc hresp p s).res with e | doc <;>
    simpa [hres] using user_json_stores_eq oc hresp p s

/-- A fixed all-success oracle whose response token equals the prior cookie,
so no rotation is observed. -/
def noRotOracle : AuthOracle :=
  { refresh := .ok (), oldCookie := some "TOK", httpResp := .ok "TOK",
    parsed := .ok ⟨"acc", "ref", []⟩, profile := .ok ⟨"Sam", 42⟩ }

/-- Claim C3 counterexample: a second successful `authenticate()` — not the
first, and with no auth-token rotation — still invokes the store-credentials
callback once, because line 358 runs on every success (`_first_auth` is
initialised but never read).  The claim allows no call on this occasion. -/
theorem c3_counterexample :
    (authenticate noRotOracle initialClientState).res = .ok ⟨"Sam", 42⟩
    ∧ (authenticate noRotOracle initialClientState).stores = 1
    ∧ (authenticate noRotOracle
        (authenticate noRotOracle initialClientState).state).res = .ok ⟨"Sam", 42⟩
    ∧ (authenticate noRotOracle
        (authenticate noRotOracle initialClientState).state).stores = 1 :=
  ⟨rfl, rfl, rfl, rfl⟩

/-- Claim C3 amended: the store-credentials callback is invoked exactly on
(a) every successful `authenticate()` call (once, at its end) and (b) every
profile fetch in which the observed auth-token cookie value differs from the
previous one while a user identity is already set; a failed `authenticate()`
makes no store call beyond the rotation case (b) of its inner fetch. -/
theorem c3_store_credentials_occasions :
    (∀ (oc : Option String) (hresp : Except PyErr String) (p : Except PyErr UserDoc)
        (s : ClientState),
        (_get_user_json oc hresp p s).stores = storeCallSpec oc hresp s.user.isSome)
    ∧ (∀ (o : AuthOracle) (s : ClientState) (u : UserInfo),
        (authenticate o s).res = .ok u →
          (authenticate o s).stores
            = storeCallSpec o.oldCookie o.httpResp s.user.isSome + 1)
    ∧ (∀ (o : AuthOracle) (s : ClientState) (e : PyErr),
        (authenticate o s).res = .error e →
          (authenticate o s).stores ≤ storeCallSpec o.oldCookie o.httpResp s.user.isSome) := by
  refine ⟨user_json_stores_eq, ?_, ?_⟩
  · intro o s u h
    unfold authenticate at h ⊢
    cases hcb : s._auth_lost_callback with
    | true =>
      rcases hr : o.refresh with e | v
      · simp [hcb, hr] at h
      · simp only [hcb, hr, if_pos] at h ⊢
        rcases hb : (_get_bearer o.oldCookie o.httpResp o.parsed
            { s with _auth_lost_callback := false }).res with e2 | b2
        · simp [hb] at h
        · rcases hp : o.profile with e3 | u3
          · simp [hb, hp] at h
          · simp only [hb, hp]
            have := bearer_stores_eq o.oldCookie o.httpResp o.parsed
              { s with _auth_lost_callback := false }
            simpa using this
    | false =>
      simp only [hcb, Bool.false_eq_true, if_neg, not_false_eq_true] at h ⊢
      rcases hb : (_get_bearer o.oldCookie o.httpResp o.parsed s).res with e2 | b2
      · simp [hb] at h
      · rcases hp : o.profile with e3 | u3
        · simp [hb, hp] at h
        · simp only [hb, hp]
          simpa using bearer_stores_eq o.oldCookie o.httpResp o.parsed s
  · intro o s e h
    unfold authenticate at h ⊢
    cases hcb : s._auth_lost_callback with
    | true =>
      rcases hr : o.refresh with e1 | v
      · simp [hcb, hr]
      · simp only [hcb, hr, if_pos] at h ⊢
        rcases hb : (_get_bearer o.oldCookie o.httpResp o.parsed
            { s with _auth_lost_callback := false }).res with e2 | b2
        · simp only [hb]
          have := bearer_stores_eq o.oldCookie o.httpResp o.parsed
            { s with _auth_lost_callback := false }
          simp at this
          omega
        · rcases hp : o.profile with e3 | u3
          · simp only [hb, hp]
            have := bearer_stores_eq o.oldCookie o.httpResp o.parsed
              { s with _auth_lost_callback := false }
            simp at this
            omega
          · simp [hb, hp] at h
    | false =>
      simp only [hcb, Bool.false_eq_true, if_neg, not_false_eq_true] at h ⊢
      rcases hb : (_get_bearer o.oldCookie o.httpResp o.parsed s).res with e2 | b2
      · simp only [hb]
        have := bearer_stores_eq o.oldCookie o.httpResp o.parsed s
        omega
      · rcases hp : o.profile with e3 | u3
        · simp only [hb, hp]
          have := bearer_stores_eq o.oldCookie o.httpResp o.parsed s
          omega
        · simp [hb, hp] at h

/-- Concrete instantiation of `c3_store_credentials_occasions`: a successful
authenticate over a rotating token with a user already set makes the rotation
store call plus the final one. -/
theorem c3_store_credentials_occasions_witness :
    (authenticate
        { refresh := .ok (), oldCookie := some "TOK", httpResp := .ok "TOK2",
          parsed := .ok ⟨"acc", "ref", []⟩, profile := .ok ⟨"Sam", 42⟩ }
        { user := some ⟨"Sam", 42⟩ }).stores
      = storeCallSpec (some "TOK") (.ok "TOK2") true + 1 :=
  c3_store_credentials_occasions.2.1
    { refresh := .ok (), oldCookie := some "TOK", httpResp := .ok "TOK2",
      parsed := .ok ⟨"acc", "ref", []⟩, profile := .ok ⟨"Sam", 42⟩ }
    { user := some ⟨"Sam", 42⟩ } ⟨"Sam", 42⟩ rfl

/-! ### Played-games projection (claim C8) -/

/-- The loop collects exactly the ids of the PC entries, in order. -/
theorem playedGamesLoop_eq_filter_map (gs : List GameEntry) :
    playedGamesLoop gs
      = (gs.filter (fun g => g.platform == "PC")).map (fun g => g.id) := by
  induction gs with
  | nil => rfl
  | cons g rest ih =>
      by_cases hg : g.platform == "PC"
      · simp [playedGamesLoop, List.filter_cons, hg, ih]
      · simp [playedGamesLoop, List.filter_cons, hg, ih]

/-- Claim C8: `get_played_games` returns exactly the ids of the `games_played`
entries whose platform is `"PC"`, in document order; the result is empty iff
the document has no PC entry; a failing fetch propagates unchanged.  The last
conjunct is the spec's worked example. -/
theorem c8_get_played_games :
    (∀ (oc : Option String) (hresp : Except PyErr String) (p : Except PyErr UserDoc)
        (s : ClientState) (doc : UserDoc),
        (_get_user_json oc hresp p s).res = .ok doc →
          (get_played_games oc hresp p s).1
            = .ok ((doc.games_played.filter (fun g => g.platform == "PC")).map
                (fun g => g.id)))
    ∧ (∀ (oc : Option String) (hresp : Except PyErr String) (p : Except PyErr UserDoc)
        (s : ClientState) (e : PyErr),
        (_get_user_json oc hresp p s).res = .error e →
          (get_played_games oc hresp p s).1 = .error e)
    ∧ (∀ gs : List GameEntry, playedGamesLoop gs = [] ↔ ∀ g ∈ gs, g.platform ≠ "PC")
    ∧ playedGamesLoop [⟨"A", "PC"⟩, ⟨"B", "PS4"⟩, ⟨"C", "PC"⟩] = ["A", "C"] := by
  refine ⟨?_, ?_, ?_, rfl⟩
  · intro oc hresp p s doc h
    unfold get_played_games
    simp [h, playedGamesLoop_eq_filter_map]
  · intro oc hresp p s e h
    unfold get_played_games
    simp [h]
  · intro gs
    rw [playedGamesLoop_eq_filter_map]
    simp [List.map_eq_nil_iff, List.filter_eq_nil_iff]

/-- Concrete instantiation of `c8_get_played_games` on the spec's example
document. -/
theorem c8_get_played_games_witness :
    (get_played_games (some "TOK") (.ok "TOK")
        (.ok ⟨"acc", "ref", [⟨"A", "PC"⟩, ⟨"B", "PS4"⟩, ⟨"C", "PC"⟩]⟩)
        initialClientState).1
      = .ok ((([⟨"A", "PC"⟩, ⟨"B", "PS4"⟩, ⟨"C", "PC"⟩] :
          List GameEntry).filter (fun g => g.platform == "PC")).map (fun g => g.id)) :=
  c8_get_played_games.1 (some "TOK") (.ok "TOK")
    (.ok ⟨"acc", "ref", [⟨"A", "PC"⟩, ⟨"B", "PS4"⟩, ⟨"C", "PC"⟩]⟩)
    initialClientState ⟨"acc", "ref", [⟨"A", "PC"⟩, ⟨"B", "PS4"⟩, ⟨"C", "PC"⟩]⟩ rfl

/-! ### `refresh_credentials` (http_client.py lines 243-310), with its log
trace

Oracle parameters give the session cookies and provider responses the
protocol observes, in program order.  Failures mirror the Python semantics:
a cleared/absent refresh token or missing rsso cookie raises `TypeError`
while building the `Cookie` header (`"RMT=" + None`, `... + rsso_name` with
`rsso_name = None`); missing jar cookies raise `KeyError`.  Every failure is
caught, logged and re-raised (lines 306-310).
-/

structure RefreshOracle where
  rsso : Option (String × String)   -- the `rsso*` cookie (name, value) in the session, if any
  corsResp : Except PyErr String    -- text of the cors/check POST (the "code")
  rmtCookie : Option String         -- `RMT` cookie after that POST
  scAuth : Option String            -- `ScAuthTokenData` cookie before deletion (old_auth)
  tsCookie : Option String          -- `TS019978c2` cookie
  loginResp : Except PyErr String   -- `str(final_json)` of the login.json POST
  newScAuth : Option String         -- `ScAuthTokenData` cookie after login.json
  deriving Repr

structure RefreshResult where
  res : Except PyErr Unit
  box : Token                       -- `self.refresh_token` after the run
  currentAuthToken : Option String  -- `self._current_auth_token` after the run
  logs : List String
  deriving Repr

def refreshFailLog : String :=
  "ROCKSTAR_REFRESH_FAILURE: The attempt to re-authenticate the user has failed"

def refresh_credentials (o : RefreshOracle) (box : Token) (now : Int)
    (cur : Option String) : RefreshResult :=
  match get_refresh_token box now with
  | .error e => ⟨.error e, box, cur, [refreshFailLog]⟩
  | .ok (rt, box1) =>
    match rt with
    | none => ⟨.error .typeError, box1, cur, [refreshFailLog]⟩
    | some _ =>
      match o.rsso with
      | none => ⟨.error .typeError, box1, cur, [refreshFailLog]⟩
      | some _ =>
        match o.corsResp with
        | .error e => ⟨.error e, box1, cur, [refreshFailLog]⟩
        | .ok code =>
          let log1 := "ROCKSTAR_REFRESH_CODE: Got code " ++ code ++ "!"
          let step4 :=
            match o.rmtCookie with
            | some rmt => (set_refresh_token box1 rmt now, ([] : List String))
            | none => (set_refresh_token box1 "" now,
                ["ROCKSTAR_RMT_MISSING: The RMT cookie is missing"])
          let box2 := step4.1
          let logsRmt := step4.2
          match o.scAuth with
          | none => ⟨.error .keyError, box2, cur, [log1] ++ logsRmt ++ [refreshFailLog]⟩
          | some old =>
            let logOld := "ROCKSTAR_OLD_AUTH_REFRESH: " ++ old
            match o.tsCookie with
            | none => ⟨.error .keyError, box2, none,
                [log1] ++ logsRmt ++ [logOld, refreshFailLog]⟩
            | some _ =>
              match o.loginResp with
              | .error e => ⟨.error e, box2, none,
                  [log1] ++ logsRmt ++ [logOld, refreshFailLog]⟩
              | .ok finalJson =>
                let logJson := "ROCKSTAR_REFRESH_JSON: " ++ finalJson
                match o.newScAuth with
                | none => ⟨.error .keyError, box2, none,
                    [log1] ++ logsRmt ++ [logOld, logJson, refreshFailLog]⟩
                | some newAuth =>
                  let logNew := "ROCKSTAR_NEW_AUTH_REFRESH: " ++ newAuth
                  let logDone := if newAuth != old then
                      ["ROCKSTAR_REFRESH_SUCCESS: The user has been successfully re-authenticated!"]
                    else []
                  ⟨.ok (), box2, some newAuth,
                    [log1] ++ logsRmt ++ [logOld, logJson, logNew] ++ logDone⟩

/-- Claim C9 counterexample: a successful `refresh_credentials` run writes
the previous `ScAuthTokenData` value to the log in full
(`ROCKSTAR_OLD_AUTH_REFRESH`, line 285) and the new value in full
(`ROCKSTAR_NEW_AUTH_REFRESH`, line 303); the full value differs from its
redacted form, so the token does not appear only partially redacted. -/
theorem c9_counterexample :
    ("ROCKSTAR_OLD_AUTH_REFRESH: SECRETAUTHTOKEN42"
        ∈ (refresh_credentials
            { rsso := some ("rsso123", "rv"), corsResp := .ok "CODE",
              rmtCookie := some "RMTTOK", scAuth := some "SECRETAUTHTOKEN42",
              tsCookie := some "ts", loginResp := .ok "{}",
              newScAuth := some "NEWAUTHTOKEN99" }
            (set_refresh_token {} "rmt" 0) 0 (some "SECRETAUTHTOKEN42")).logs)
    ∧ ("ROCKSTAR_NEW_AUTH_REFRESH: NEWAUTHTOKEN99"
        ∈ (refresh_credentials
            { rsso := some ("rsso123", "rv"), corsResp := .ok "CODE",
              rmtCookie := some "RMTTOK", scAuth := some "SECRETAUTHTOKEN42",
              tsCookie := some "ts", loginResp := .ok "{}",
              newScAuth := some "NEWAUTHTOKEN99" }
            (set_refresh_token {} "rmt" 0) 0 (some "SECRETAUTHTOKEN42")).logs)
    ∧ redact "SECRETAUTHTOKEN42" ≠ "SECRETAUTHTOKEN42"
    ∧ redact "NEWAUTHTOKEN99" ≠ "NEWAUTHTOKEN99" := by
  refine ⟨?_, ?_, by decide, by decide⟩ <;> decide

/-- Claim C9 amended: in `_get_user_json` diagnostics the auth-token value
appears only in the redacted first-5/last-3 form, but `refresh_credentials`
writes both the old and the new `ScAuthTokenData` values to the log in
full. -/
theorem c9_token_logging :
    (∀ (old na : String) (p : Except PyErr UserDoc) (s : ClientState),
        (_get_user_json (some old) (.ok na) p s).logs
          = ["ROCKSTAR_OLD_AUTH: " ++ redact old, "ROCKSTAR_NEW_AUTH " ++ redact na]
            ++ (if na != old then
                ["ROCKSTAR_AUTH_CHANGE: The ScAuthTokenData value has changed!"] else [])
            ++ (if p.isOk then [] else ["ROCKSTAR_USER_JSON_ERROR"]))
    ∧ (∀ (o : RefreshOracle) (b : Token) (tok : String) (now : Int)
        (cur : Option String) (rn rv code old : String),
        o.rsso = some (rn, rv) → o.corsResp = .ok code → o.scAuth = some old →
          ("ROCKSTAR_OLD_AUTH_REFRESH: " ++ old)
            ∈ (refresh_credentials o (set_refresh_token b tok now) now cur).logs) := by
  constructor
  · intro old na p s
    rcases p with e | doc <;> simp [_get_user_json, Except.isOk, Except.toBool]
  · intro o b tok now cur rn rv code old hrsso hcors hsc
    have hexp : ¬ (now + twentyYears ≤ now) := by
      unfold twentyYears
      omega
    unfold refresh_credentials
    simp only [get_refresh_token, set_refresh_token, Token.set_token, Token.expired,
      Token.get_token, hexp, decide_eq_true_eq, if_neg, decide_eq_false_iff_not,
      not_false_eq_true, hrsso, hcors, hsc]
    rcases o.rmtCookie with _ | rmt <;>
      rcases o.tsCookie with _ | ts <;>
        rcases o.loginResp with e | fj <;>
          rcases o.newScAuth with _ | na2 <;>
            simp

/-- Concrete instantiation of `c9_token_logging`: the redacted fetch log for
an 11-character token, and the full-token refresh log. -/
theorem c9_token_logging_witness :
    (_get_user_json (some "ABCDEFGHIJK") (.ok "ABCDEFGHIJK")
        (.ok ⟨"acc", "ref", []⟩) initialClientState).logs
      = ["ROCKSTAR_OLD_AUTH: " ++ redact "ABCDEFGHIJK",
         "ROCKSTAR_NEW_AUTH " ++ redact "ABCDEFGHIJK"]
        ++ (if "ABCDEFGHIJK" != "ABCDEFGHIJK" then
            ["ROCKSTAR_AUTH_CHANGE: The ScAuthTokenData value has changed!"] else [])
        ++ (if (Except.ok (⟨"acc", "ref", []⟩ : UserDoc) : Except PyErr UserDoc).isOk
            then [] else ["ROCKSTAR_USER_JSON_ERROR"])
    ∧ ("ROCKSTAR_OLD_AUTH_REFRESH: ABCDEFGHIJK"
        ∈ (refresh_credentials
            { rsso := some ("rssoA", "rv"), corsResp := .ok "CODE",
              rmtCookie := some "RMTTOK", scAuth := some "ABCDEFGHIJK",
              tsCookie := some "ts", loginResp := .ok "{}",
              newScAuth := some "NEW" }
            (set_refresh_token {} "rmt" 0) 0 none).logs) :=
  ⟨c9_token_logging.1 "ABCDEFGHIJK" "ABCDEFGHIJK" (.ok ⟨"acc", "ref", []⟩)
      initialClientState,
    c9_token_logging.2 _ {} "rmt" 0 none "rssoA" "rv" "CODE" "ABCDEFGHIJK"
      rfl rfl rfl⟩

/-! ### `get_credentials` aliasing (http_client.py lines 72-84, claim C10)

`get_credentials` executes `creds = self.user` — binding the *same* dict
object — then assigns four keys into it and returns it.  To express object
identity, the user dict lives on an explicit heap of addresses; `self.user`
holds an address.  Python dict assignment replaces an existing key in place
and otherwise appends; the serialized session/refresh-token blobs
(`pickle.dumps(...).hex()`) are opaque oracle strings. -/

inductive PyVal where
  | str : String → PyVal
  | int : Int → PyVal
  | noneV : PyVal
  deriving DecidableEq, Repr

abbrev Dict := List (String × PyVal)

def dictSet : Dict → String → PyVal → Dict
  | [], k, v => [(k, v)]
  | kv :: t, k, v => if kv.1 == k then (k, v) :: t else kv :: dictSet t k v

def dictGet : Dict → String → Option PyVal
  | [], _ => none
  | kv :: t, k => if kv.1 == k then some kv.2 else dictGet t k

def heapGet : List (Nat × Dict) → Nat → Option Dict
  | [], _ => none
  | p :: t, a => if p.1 == a then some p.2 else heapGet t a

def heapSet : List (Nat × Dict) → Nat → Dict → List (Nat × Dict)
  | [], _, _ => []
  | p :: t, a, d => if p.1 == a then (a, d) :: t else p :: heapSet t a d

theorem dictGet_dictSet_self (d : Dict) (k : String) (v : PyVal) :
    dictGet (dictSet d k v) k = some v := by
  induction d with
  | nil => simp [dictSet, dictGet]
  | cons kv t ih =>
      by_cases hk : kv.1 == k
      · simp [dictSet, dictGet, hk]
      · simp [dictSet, dictGet, hk, ih]

theorem dictGet_dictSet_ne (d : Dict) (k k' : String) (v : PyVal) (h : k' ≠ k) :
    dictGet (dictSet d k v) k' = dictGet d k' := by
  induction d with
  | nil =>
      have hne : ¬ ((k : String) == k') = true := by
        simp only [beq_iff_eq]
        exact fun hk => h hk.symm
      simp [dictSet, dictGet, hne]
  | cons kv t ih =>
      by_cases hk : kv.1 == k
      · have hk' : ¬ ((k : String) == k') = true := by
          simp only [beq_iff_eq]
          exact fun hkk => h hkk.symm
        have hkv : ¬ (kv.1 == k') = true := by
          simp only [beq_iff_eq] at hk ⊢
          rw [hk]
          exact fun hkk => h hkk.symm
        simp [dictSet, dictGet, hk, hk', hkv]
      · simp [dictSet, dictGet, hk, ih]

theorem heapGet_heapSet_self (h : List (Nat × Dict)) (a : Nat) (d d0 : Dict)
    (hpres : heapGet h a = some d0) : heapGet (heapSet h a d) a = some d := by
  induction h with
  | nil => simp [heapGet] at hpres
  | cons p t ih =>
      by_cases hp : p.1 == a
      · simp [heapSet, heapGet, hp]
      · simp only [heapGet, hp, Bool.false_eq_true, if_neg, not_false_eq_true] at hpres
        simp [heapSet, heapGet, hp, ih hpres]

/-- The manager state viewed with the user dict on an explicit heap. -/
structure RefState where
  heap : List (Nat × Dict)
  user : Option Nat
  _current_auth_token : Option String := none
  _fingerprint : Option String := none
  deriving Repr

/-- A Python value that is `None` when the optional is absent. -/
def optVal : Option String → PyVal
  | none => .noneV
  | some s => .str s

/-- The four serialized-credential keys inserted by `get_credentials`
(lines 80-83), in program order. -/
def credsDict (d : Dict) (sessionHex refreshHex : String) (cur fp : Option String) : Dict :=
  dictSet (dictSet (dictSet (dictSet d "session_object" (.str sessionHex))
      "current_auth_token" (optVal cur))
      "refresh_token" (.str refreshHex))
    "fingerprint" (optVal fp)

/-- `get_credentials` (lines 72-84): `creds = self.user`, four key
assignments into that same object, `return creds`.  With `self.user = None`
the first subscript assignment raises `TypeError`. -/
def get_credentials (sessionHex refreshHex : String) (s : RefState) :
    Except PyErr (Nat × RefState) :=
  match s.user with
  | none => .error .typeError
  | some addr =>
    match heapGet s.heap addr with
    | none => .error .keyError
    | some d =>
        let d4 := credsDict d sessionHex refreshHex s._current_auth_token s._fingerprint
        .ok (addr, { s with heap := heapSet s.heap addr d4 })

/-- Claim C10: `get_credentials` returns the very dict object stored as
`self.user` (the same heap address), after inserting the `session_object`,
`current_auth_token`, `refresh_token` and `fingerprint` keys into it in
place; afterwards the stored user dict itself contains those keys, with all
other keys (display name, account id) unchanged. -/
theorem c10_get_credentials_aliasing (sessionHex refreshHex : String) (s : RefState)
    (addr : Nat) (d : Dict)
    (hu : s.user = some addr) (hd : heapGet s.heap addr = some d) :
    get_credentials sessionHex refreshHex s
        = .ok (addr, { s with heap := heapSet s.heap addr (credsDict d sessionHex refreshHex s._current_auth_token s._fingerprint) })
    ∧ ({ s with heap := heapSet s.heap addr (credsDict d sessionHex refreshHex s._current_auth_token s._fingerprint) } : RefState).user = some addr
    ∧ heapGet (heapSet s.heap addr
          (credsDict d sessionHex refreshHex s._current_auth_token s._fingerprint)) addr
        = some (credsDict d sessionHex refreshHex s._current_auth_token s._fingerprint)
    ∧ dictGet (credsDict d sessionHex refreshHex s._current_auth_token s._fingerprint)
        "session_object" = some (.str sessionHex)
    ∧ dictGet (credsDict d sessionHex refreshHex s._current_auth_token s._fingerprint)
        "current_auth_token" = some (optVal s._current_auth_token)
    ∧ dictGet (credsDict d sessionHex refreshHex s._current_auth_token s._fingerprint)
        "refresh_token" = some (.str refreshHex)
    ∧ dictGet (credsDict d sessionHex refreshHex s._current_auth_token s._fingerprint)
        "fingerprint" = some (optVal s._fingerprint)
    ∧ (∀ k : String, k ≠ "session_object" → k ≠ "current_auth_token" →
        k ≠ "refresh_token" → k ≠ "fingerprint" →
        dictGet (credsDict d sessionHex refreshHex s._current_auth_token s._fingerprint) k
          = dictGet d k) := by
  refine ⟨?_, ?_, heapGet_heapSet_self s.heap addr _ d hd, ?_, ?_, ?_,
    dictGet_dictSet_self _ _ _, ?_⟩
  · unfold get_credentials
    rw [hu]
    simp [hd]
  · rw [hu]
  · rw [credsDict,
      dictGet_dictSet_ne _ _ _ _ (by decide : ("session_object" : String) ≠ "fingerprint"),
      dictGet_dictSet_ne _ _ _ _ (by decide : ("session_object" : String) ≠ "refresh_token"),
      dictGet_dictSet_ne _ _ _ _
        (by decide : ("session_object" : String) ≠ "current_auth_token"),
      dictGet_dictSet_self]
  · rw [credsDict,
      dictGet_dictSet_ne _ _ _ _
        (by decide : ("current_auth_token" : String) ≠ "fingerprint"),
      dictGet_dictSet_ne _ _ _ _
        (by decide : ("current_auth_token" : String) ≠ "refresh_token"),
      dictGet_dictSet_self]
  · rw [credsDict,
      dictGet_dictSet_ne _ _ _ _ (by decide : ("refresh_token" : String) ≠ "fingerprint"),
      dictGet_dictSet_self]
  · intro k h1 h2 h3 h4
    rw [credsDict, dictGet_dictSet_ne _ _ _ _ h4, dictGet_dictSet_ne _ _ _ _ h3,
      dictGet_dictSet_ne _ _ _ _ h2, dictGet_dictSet_ne _ _ _ _ h1]

/-- The sample user dict and heap state used to instantiate the aliasing
theorem. -/
def sampleUserDict : Dict :=
  [("display_name", .str "Sam"), ("rockstar_id", .int 42)]

def sampleRefState : RefState :=
  ⟨[(0, sampleUserDict)], some 0, some "TOK", some "fp"⟩

/-- Concrete instantiation of `c10_get_credentials_aliasing`: a user dict
holding the display name and account id at heap address 0. -/
theorem c10_get_credentials_aliasing_witness :
    get_credentials "5ec0de" "cafe" sampleRefState
        = .ok (0, { sampleRefState with heap := heapSet sampleRefState.heap 0 (credsDict sampleUserDict "5ec0de" "cafe" (some "TOK") (some "fp")) })
    ∧ ({ sampleRefState with heap := heapSet sampleRefState.heap 0 (credsDict sampleUserDict "5ec0de" "cafe" (some "TOK") (some "fp")) } : RefState).user = some 0
    ∧ heapGet (heapSet sampleRefState.heap 0
          (credsDict sampleUserDict "5ec0de" "cafe" (some "TOK") (some "fp"))) 0
        = some (credsDict sampleUserDict "5ec0de" "cafe" (some "TOK") (some "fp"))
    ∧ dictGet (credsDict sampleUserDict "5ec0de" "cafe" (some "TOK") (some "fp"))
        "session_object" = some (.str "5ec0de")
    ∧ dictGet (credsDict sampleUserDict "5ec0de" "cafe" (some "TOK") (some "fp"))
        "current_auth_token" = some (optVal (some "TOK"))
    ∧ dictGet (credsDict sampleUserDict "5ec0de" "cafe" (some "TOK") (some "fp"))
        "refresh_token" = some (.str "cafe")
    ∧ dictGet (credsDict sampleUserDict "5ec0de" "cafe" (some "TOK") (some "fp"))
        "fingerprint" = some (optVal (some "fp"))
    ∧ (∀ k : String, k ≠ "session_object" → k ≠ "current_auth_token" →
        k ≠ "refresh_token" → k ≠ "fingerprint" →
        dictGet (credsDict sampleUserDict "5ec0de" "cafe" (some "TOK") (some "fp")) k
          = dictGet sampleUserDict k) :=
  c10_get_credentials_aliasing "5ec0de" "cafe" sampleRefState 0 sampleUserDict rfl rfl

end RockstarAuth
